import Mathlib

/-!
Shallow embedding of the `aoc-mine` grid library (src/src/coord.rs,
src/src/grid.rs, src/src/grid/hash_grid.rs, src/src/grid/linear_grid.rs).

Modelling conventions:
* The scalar type `T : GridNum` is instantiated at an unsigned `w`-bit
  integer for the coordinate arithmetic (values are `Nat`, valid when
  `< 2 ^ w`), and at a signed integer (`Int`, as in the repository's
  `i32` tests) for the dense backend and collinearity test, where the
  interesting behaviour is the sign of a component.
* Rust's checked arithmetic (`checked_add` / `checked_sub`) is modelled
  by `Option`-returning functions.
* Rust's unchecked `+` / `-` on unsigned integers is modelled with
  debug-build semantics: overflow/underflow is a panic, modelled as
  `none` in an outer `Option` layer (`some r` = the operation ran to
  completion with result `r`).
* `cfg(debug_assertions)` is modelled by an explicit `dbg : Bool`
  argument threaded through `HashGrid` operations.
* `anyhow::Result` is modelled by `Except String`.
-/

/-- Unsigned coordinate: `Coord<T>` for an unsigned integer `T` of width
`w` bits; components are `Nat`, a value is representable when `< 2 ^ w`. -/
structure Coord where
  x : Nat
  y : Nat
deriving DecidableEq, Repr

/-- Rust `checked_sub` on an unsigned integer: `none` exactly on underflow. -/
def checkedSub (a b : Nat) : Option Nat :=
  if b ≤ a then some (a - b) else none

/-- Rust `checked_add` on a `w`-bit unsigned integer: `none` exactly when
the mathematical sum is not representable. -/
def checkedAdd (w a b : Nat) : Option Nat :=
  if a + b < 2 ^ w then some (a + b) else none

/-- Rust unchecked `-` on an unsigned integer under debug-build semantics:
underflow is a panic, modelled as `none`. -/
def usubPanic (a b : Nat) : Option Nat :=
  if b ≤ a then some (a - b) else none

/-- Rust unchecked `+` on a `w`-bit unsigned integer under debug-build
semantics: overflow is a panic, modelled as `none`. -/
def uaddPanic (w a b : Nat) : Option Nat :=
  if a + b < 2 ^ w then some (a + b) else none

/-- `Coord::up_n(n, min_y)` (src/src/coord.rs lines 22-33).  The outer
`Option` is the panic layer; the `self.1 < n` disjunct short-circuits, so
the unchecked `self.1 - n` in the limit test is only evaluated when it
cannot underflow.  The result layer mirrors `self.1.checked_sub(&n)?`. -/
def Coord.up_n (c : Coord) (nOpt min_y : Option Nat) : Option (Option Coord) :=
  let n := nOpt.getD 1
  match min_y with
  | some min =>
    if c.y < n then some none
    else
      match usubPanic c.y n with
      | none => none
      | some d =>
        if d < min then some none
        else some ((checkedSub c.y n).map fun new_y => ⟨c.x, new_y⟩)
  | none => some ((checkedSub c.y n).map fun new_y => ⟨c.x, new_y⟩)

/-- `Coord::down_n(n, max_y)` (src/src/coord.rs lines 35-46).  The limit
test `self.1 + n > max` uses unchecked addition, which can panic. -/
def Coord.down_n (w : Nat) (c : Coord) (nOpt max_y : Option Nat) : Option (Option Coord) :=
  let n := nOpt.getD 1
  match max_y with
  | some max =>
    match uaddPanic w c.y n with
    | none => none
    | some s =>
      if s > max then some none
      else some ((checkedAdd w c.y n).map fun new_y => ⟨c.x, new_y⟩)
  | none => some ((checkedAdd w c.y n).map fun new_y => ⟨c.x, new_y⟩)

/-- `Coord::left_n(n, min_x)` (src/src/coord.rs lines 48-59), mirroring
`up_n` on the x component. -/
def Coord.left_n (c : Coord) (nOpt min_x : Option Nat) : Option (Option Coord) :=
  let n := nOpt.getD 1
  match min_x with
  | some min =>
    if c.x < n then some none
    else
      match usubPanic c.x n with
      | none => none
      | some d =>
        if d < min then some none
        else some ((checkedSub c.x n).map fun new_x => ⟨new_x, c.y⟩)
  | none => some ((checkedSub c.x n).map fun new_x => ⟨new_x, c.y⟩)

/-- `Coord::right_n(n, max_x)` (src/src/coord.rs lines 61-72), mirroring
`down_n` on the x component. -/
def Coord.right_n (w : Nat) (c : Coord) (nOpt max_x : Option Nat) : Option (Option Coord) :=
  let n := nOpt.getD 1
  match max_x with
  | some max =>
    match uaddPanic w c.x n with
    | none => none
    | some s =>
      if s > max then some none
      else some ((checkedAdd w c.x n).map fun new_x => ⟨new_x, c.y⟩)
  | none => some ((checkedAdd w c.x n).map fun new_x => ⟨new_x, c.y⟩)

/-- Signed coordinate: `Coord<T>` at a signed integer instantiation
(the repository's tests use `i32`); used by the dense backend and the
collinearity test. -/
structure CoordZ where
  x : Int
  y : Int
deriving DecidableEq, Repr

/-- `Coord::points_are_linear` (src/src/coord.rs lines 128-149) at the
signed instantiation: fewer than 3 points are collinear; otherwise every
point after the first two must satisfy the cross-product test
`ref_dx * dy == ref_dy * dx` against the line through the first two. -/
def CoordZ.points_are_linear (coords : List CoordZ) : Bool :=
  match coords with
  | c1 :: c2 :: c3 :: rest =>
    let ref_dx := c2.x - c1.x
    let ref_dy := c2.y - c1.y
    (c3 :: rest).all fun c =>
      let dx := c.x - c1.x
      let dy := c.y - c1.y
      ref_dx * dy == ref_dy * dx
  | _ => true

/-- `HashGrid<T, V>` (src/src/grid/hash_grid.rs lines 6-13) at the
unsigned instantiation: the `hashbrown::HashMap` is modelled
extensionally as a function `Coord → Option V`, plus the four optional
per-axis bounds. -/
structure HashGrid (V : Type) where
  data : Coord → Option V
  min_x : Option Nat
  max_x : Option Nat
  min_y : Option Nat
  max_y : Option Nat

/-- `HashGrid::new` (src/src/grid/hash_grid.rs lines 16-24). -/
def HashGrid.new (V : Type) : HashGrid V :=
  { data := fun _ => none, min_x := none, max_x := none, min_y := none, max_y := none }

/-- `HashGrid::check_bounds` (src/src/grid/hash_grid.rs lines 49-75).
`dbg` models `cfg(debug_assertions)`: the four bound tests run only when
it is set; otherwise every key passes. -/
def HashGrid.check_bounds (g : HashGrid V) (dbg : Bool) (key : Coord) : Except String Unit :=
  if dbg then
    if g.min_x.any (fun min_x => decide (key.x < min_x)) then
      .error "Key x-coordinate is less than minimum x-coordinate"
    else if g.max_x.any (fun max_x => decide (key.x > max_x)) then
      .error "Key x-coordinate is greater than maximum x-coordinate"
    else if g.min_y.any (fun min_y => decide (key.y < min_y)) then
      .error "Key y-coordinate is less than minimum y-coordinate"
    else if g.max_y.any (fun max_y => decide (key.y > max_y)) then
      .error "Key y-coordinate is greater than maximum y-coordinate"
    else .ok ()
  else .ok ()

/-- The key satisfies all four configured bounds (the condition
`check_bounds` tests when active). -/
def HashGrid.inBounds (g : HashGrid V) (key : Coord) : Bool :=
  g.min_x.all (fun min_x => decide (min_x ≤ key.x)) &&
  g.max_x.all (fun max_x => decide (key.x ≤ max_x)) &&
  g.min_y.all (fun min_y => decide (min_y ≤ key.y)) &&
  g.max_y.all (fun max_y => decide (key.y ≤ max_y))

/-- `HashGrid::insert` (src/src/grid/hash_grid.rs lines 76-81):
check bounds, then unconditionally overwrite the key. -/
def HashGrid.insert (g : HashGrid V) (dbg : Bool) (key : Coord) (value : V) :
    Except String (HashGrid V) :=
  match g.check_bounds dbg key with
  | .error e => .error e
  | .ok _ => .ok { g with data := fun c => if c = key then some value else g.data c }

/-- `HashGrid::insert_or_ignore` (src/src/grid/hash_grid.rs lines 82-86):
`entry(key).or_insert(value)` keeps a pre-existing value. -/
def HashGrid.insert_or_ignore (g : HashGrid V) (dbg : Bool) (key : Coord) (value : V) :
    Except String (HashGrid V) :=
  match g.check_bounds dbg key with
  | .error e => .error e
  | .ok _ =>
    .ok { g with data := fun c => if c = key then some ((g.data key).getD value) else g.data c }

/-- `HashGrid::get` (src/src/grid/hash_grid.rs lines 88-91). -/
def HashGrid.get (g : HashGrid V) (dbg : Bool) (key : Coord) : Option V :=
  match g.check_bounds dbg key with
  | .error _ => none
  | .ok _ => g.data key

/-- `HashGrid::up_n` (src/src/grid/hash_grid.rs lines 105-110).  The
shift `coord.y() - step` is unchecked subtraction: for an unsigned
scalar it panics (outer `none`) when `step > coord.y()`. -/
def HashGrid.up_n (g : HashGrid V) (dbg : Bool) (coord : Coord) (step : Nat) :
    Option (Option V) :=
  match usubPanic coord.y step with
  | none => none
  | some new_y =>
    let new_coord : Coord := ⟨coord.x, new_y⟩
    some (match g.check_bounds dbg new_coord with
          | .error _ => none
          | .ok _ => g.data new_coord)

/-- `HashGrid::matches` (src/src/grid/hash_grid.rs lines 112-121). -/
def HashGrid.matches [DecidableEq V] (g : HashGrid V) (dbg : Bool) (key : Coord) (value : V) :
    Except String Bool :=
  match g.check_bounds dbg key with
  | .error e => .error e
  | .ok _ =>
    match g.data key with
    | some grid_value => .ok (decide (grid_value = value))
    | none => .ok false

/-- `LinearGrid<T, V>` (src/src/grid/linear_grid.rs lines 6-12) at the
signed instantiation (`i32`, as in the repository's tests): the backing
`Vec<V>` is a list, plus the configured width and height. -/
structure LinearGrid (V : Type) where
  data : List V
  width : Nat
  height : Nat
deriving Repr

/-- `LinearGrid::new` (src/src/grid/linear_grid.rs lines 47-55): the
backing sequence starts as `width * height` copies of `initial`. -/
def LinearGrid.new (width height : Nat) (initial : V) : LinearGrid V :=
  { data := List.replicate (width * height) initial, width := width, height := height }

/-- `usize::try_from` on a signed integer (64-bit platform): fails exactly
when the value is negative. -/
def toIndex (i : Int) : Option Nat :=
  if i < 0 then none else some i.toNat

/-- `LinearGrid::get_index_from_coord` (src/src/grid/linear_grid.rs lines
57-62): convert both components to indices, then return `y * width + x`
with no comparison against width or height. -/
def LinearGrid.get_index_from_coord (g : LinearGrid V) (coord : CoordZ) : Option Nat := do
  let x ← toIndex coord.x
  let y ← toIndex coord.y
  pure (y * g.width + x)

/-- `LinearGrid::check_bounds` (src/src/grid/linear_grid.rs lines 70-73):
unconditionally `Ok(())`. -/
def LinearGrid.check_bounds (_g : LinearGrid V) (_key : CoordZ) : Except String Unit :=
  .ok ()

/-- `LinearGrid::clear` (src/src/grid/linear_grid.rs lines 66-68):
`Vec::clear` empties the backing sequence. -/
def LinearGrid.clear (g : LinearGrid V) : LinearGrid V :=
  { g with data := [] }

/-- `LinearGrid::insert` (src/src/grid/linear_grid.rs lines 74-84): an
unconvertible coordinate is an error; otherwise `data.get_mut(index)`
writes when the index is in range and silently does nothing when it is
not (`List.set` is likewise the identity out of range), and the call
returns `Ok` either way. -/
def LinearGrid.insert (g : LinearGrid V) (key : CoordZ) (value : V) :
    Except String (LinearGrid V) :=
  match g.check_bounds key with
  | .error e => .error e
  | .ok _ =>
    match g.get_index_from_coord key with
    | none => .error "Coordinate out of bounds"
    | some index => .ok { g with data := g.data.set index value }

/-- `LinearGrid::get` (src/src/grid/linear_grid.rs lines 86-93). -/
def LinearGrid.get (g : LinearGrid V) (key : CoordZ) : Option V :=
  match g.check_bounds key with
  | .error _ => none
  | .ok _ =>
    match g.get_index_from_coord key with
    | none => none
    | some index => g.data[index]?

/-- `LinearGrid::up_n` (src/src/grid/linear_grid.rs lines 100-109): the
shift `coord.y() - step` is unchecked; at the signed instantiation over
unbounded `Int` it is total. -/
def LinearGrid.up_n (g : LinearGrid V) (coord : CoordZ) (step : Int) : Option V :=
  let new_coord : CoordZ := ⟨coord.x, coord.y - step⟩
  match g.check_bounds new_coord with
  | .error _ => none
  | .ok _ =>
    match g.get_index_from_coord new_coord with
    | none => none
    | some index => g.data[index]?

/-- `LinearGrid::matches` (src/src/grid/linear_grid.rs lines 111-123). -/
def LinearGrid.matches [DecidableEq V] (g : LinearGrid V) (key : CoordZ) (value : V) :
    Except String Bool :=
  match g.check_bounds key with
  | .error e => .error e
  | .ok _ =>
    match g.get_index_from_coord key with
    | none => .error "Coordinate out of bounds"
    | some index =>
      match g.data[index]? with
      | some grid_value => .ok (decide (grid_value = value))
      | none => .ok false

/-- `LinearGridIter` (src/src/grid/linear_grid.rs lines 19-35) as the
list of pairs it produces: index `idx` yields coordinate
`(idx % width, idx / width)` and the stored value, in ascending index
order. -/
def LinearGrid.iterList (g : LinearGrid V) : List (CoordZ × V) :=
  g.data.mapIdx fun idx v =>
    (⟨((idx % g.width : Nat) : Int), ((idx / g.width : Nat) : Int)⟩, v)

/-! ### Helper lemmas -/

theorem option_any_lt_false_iff (o : Option Nat) (j : Nat) :
    (o.any fun m => decide (j < m)) = false ↔ (o.all fun m => decide (m ≤ j)) = true := by
  cases o <;> simp [Nat.not_lt]

theorem option_any_gt_false_iff (o : Option Nat) (j : Nat) :
    (o.any fun m => decide (j > m)) = false ↔ (o.all fun m => decide (j ≤ m)) = true := by
  cases o <;> simp [Nat.not_lt]

/-- When the key satisfies the configured bounds, `check_bounds` succeeds in
both build configurations. -/
theorem check_bounds_of_inBounds {V : Type} {g : HashGrid V} {key : Coord}
    (hb : g.inBounds key = true) (dbg : Bool) : g.check_bounds dbg key = .ok () := by
  cases dbg with
  | false => rfl
  | true =>
    simp only [HashGrid.inBounds, Bool.and_eq_true] at hb
    obtain ⟨⟨⟨h1, h2⟩, h3⟩, h4⟩ := hb
    simp only [HashGrid.check_bounds, if_true,
      (option_any_lt_false_iff g.min_x key.x).mpr h1,
      (option_any_gt_false_iff g.max_x key.x).mpr h2,
      (option_any_lt_false_iff g.min_y key.y).mpr h3,
      (option_any_gt_false_iff g.max_y key.y).mpr h4,
      Bool.false_eq_true, if_false]

/-- When the key violates some configured bound, `check_bounds` with checking
active returns an error. -/
theorem check_bounds_error_of_not_inBounds {V : Type} {g : HashGrid V} {key : Coord}
    (hb : g.inBounds key = false) : ∃ e, g.check_bounds true key = .error e := by
  by_cases h1 : (g.min_x.any fun m => decide (key.x < m)) = true
  · exact ⟨"Key x-coordinate is less than minimum x-coordinate",
      by simp [HashGrid.check_bounds, h1]⟩
  by_cases h2 : (g.max_x.any fun m => decide (key.x > m)) = true
  · exact ⟨"Key x-coordinate is greater than maximum x-coordinate",
      by simp [HashGrid.check_bounds, h1, h2]⟩
  by_cases h3 : (g.min_y.any fun m => decide (key.y < m)) = true
  · exact ⟨"Key y-coordinate is less than minimum y-coordinate",
      by simp [HashGrid.check_bounds, h1, h2, h3]⟩
  by_cases h4 : (g.max_y.any fun m => decide (key.y > m)) = true
  · exact ⟨"Key y-coordinate is greater than maximum y-coordinate",
      by simp [HashGrid.check_bounds, h1, h2, h3, h4]⟩
  exfalso
  simp only [Bool.not_eq_true] at h1 h2 h3 h4
  have : g.inBounds key = true := by
    simp only [HashGrid.inBounds, Bool.and_eq_true]
    exact ⟨⟨⟨(option_any_lt_false_iff g.min_x key.x).mp h1,
      (option_any_gt_false_iff g.max_x key.x).mp h2⟩,
      (option_any_lt_false_iff g.min_y key.y).mp h3⟩,
      (option_any_gt_false_iff g.max_y key.y).mp h4⟩
  rw [hb] at this
  exact Bool.false_ne_true this

/-! ### Claims -/

/-- C4: for every unsigned coordinate `c` (of any width `w`) and step
`n ≤ c.y`, `c.up_n(n)` with no limit succeeds (no panic, a result), and
`down_n(n)` applied to the result yields `Some c`. -/
theorem up_n_down_n_inverse (w : Nat) (c : Coord) (n : Nat)
    (hn : n ≤ c.y) (hy : c.y < 2 ^ w) :
    Coord.up_n c (some n) none = some (some ⟨c.x, c.y - n⟩) ∧
    Coord.down_n w ⟨c.x, c.y - n⟩ (some n) none = some (some c) := by
  constructor
  · simp [Coord.up_n, checkedSub, hn]
  · have hsum : c.y - n + n = c.y := Nat.sub_add_cancel hn
    simp [Coord.down_n, checkedAdd, hsum, hy]

/-- Witness for C4 at `w = 8`, `c = (5, 7)`, `n = 3`. -/
theorem up_n_down_n_inverse_witness :
    Coord.up_n ⟨5, 7⟩ (some 3) none = some (some ⟨5, 4⟩) ∧
    Coord.down_n 8 ⟨5, 4⟩ (some 3) none = some (some ⟨5, 7⟩) :=
  up_n_down_n_inverse 8 ⟨5, 7⟩ 3 (by decide) (by decide)

/-- C5: `up_n`/`left_n` with an explicit step and a lower limit never panic
and fail exactly when the limit check fires — `current < step` (the
would-underflow case) or `current - step < limit` — and when the limit
check passes, the checked subtraction succeeds and is never the failure
source. -/
theorem up_n_left_n_limit_check (c : Coord) (n m : Nat) :
    Coord.up_n c (some n) (some m) =
      some (if c.y < n ∨ c.y - n < m then none else some ⟨c.x, c.y - n⟩) ∧
    Coord.left_n c (some n) (some m) =
      some (if c.x < n ∨ c.x - n < m then none else some ⟨c.x - n, c.y⟩) := by
  constructor
  · by_cases h1 : c.y < n
    · simp [Coord.up_n, h1]
    · by_cases h2 : c.y - n < m
      · simp [Coord.up_n, usubPanic, h1, h2, Nat.le_of_not_lt h1]
      · simp [Coord.up_n, usubPanic, checkedSub, h1, h2, Nat.le_of_not_lt h1]
  · by_cases h1 : c.x < n
    · simp [Coord.left_n, h1]
    · by_cases h2 : c.x - n < m
      · simp [Coord.left_n, usubPanic, h1, h2, Nat.le_of_not_lt h1]
      · simp [Coord.left_n, usubPanic, checkedSub, h1, h2, Nat.le_of_not_lt h1]

/-- C3 counterexample: at 8-bit unsigned, `down_n` from `(0, 200)` with step
100 and limit 250 panics (the unchecked `self.1 + n` in the limit check
overflows), and the associative backend's `up_n` from `(0, 0)` with step 1
panics (the unchecked `coord.y() - step` underflows) — both are fatal, not
an explicit "no value" outcome. -/
theorem directional_totality_counterexample :
    Coord.down_n 8 ⟨0, 200⟩ (some 100) (some 250) = none ∧
    HashGrid.up_n (HashGrid.new Int) true ⟨0, 0⟩ 1 = none :=
  ⟨by decide, rfl⟩

/-- C3 amended: every `Coord` directional operation returns an explicit
"no value" outcome rather than panicking, except that `down_n`/`right_n`
with a limit supplied panic exactly when the unchecked addition
`current + step` in the limit check overflows the scalar type, and the
grid backends' `up_n` neighbor lookup panics exactly when the unchecked
shift `coord.y - step` underflows an unsigned scalar.  Concretely:
`up_n`/`left_n` never panic for any step/limit, `down_n`/`right_n` never
panic when no limit is supplied, and the panic conditions of the remaining
cases are characterized. -/
theorem directional_totality_amended {V : Type} (w : Nat) (c : Coord)
    (nOpt mOpt : Option Nat) (g : HashGrid V) (dbg : Bool) (step : Nat) :
    (Coord.up_n c nOpt mOpt).isSome = true ∧
    (Coord.left_n c nOpt mOpt).isSome = true ∧
    (Coord.down_n w c nOpt none).isSome = true ∧
    (Coord.right_n w c nOpt none).isSome = true ∧
    (∀ max, (Coord.down_n w c nOpt (some max) = none ↔ 2 ^ w ≤ c.y + nOpt.getD 1)) ∧
    (∀ max, (Coord.right_n w c nOpt (some max) = none ↔ 2 ^ w ≤ c.x + nOpt.getD 1)) ∧
    (g.up_n dbg c step = none ↔ c.y < step) := by
  refine ⟨?_, ?_, ?_, ?_, ?_, ?_, ?_⟩
  · rcases mOpt with _ | m
    · simp [Coord.up_n]
    · by_cases h1 : c.y < nOpt.getD 1
      · simp [Coord.up_n, h1]
      · simp only [Coord.up_n, usubPanic, if_neg h1, if_pos (Nat.le_of_not_lt h1)]
        split <;> rfl
  · rcases mOpt with _ | m
    · simp [Coord.left_n]
    · by_cases h1 : c.x < nOpt.getD 1
      · simp [Coord.left_n, h1]
      · simp only [Coord.left_n, usubPanic, if_neg h1, if_pos (Nat.le_of_not_lt h1)]
        split <;> rfl
  · simp [Coord.down_n]
  · simp [Coord.right_n]
  · intro max
    simp only [Coord.down_n, uaddPanic]
    by_cases h : c.y + nOpt.getD 1 < 2 ^ w
    · simp only [if_pos h]
      constructor
      · intro habs
        exfalso
        revert habs
        split <;> simp
      · intro hge
        omega
    · simp only [if_neg h]
      constructor
      · intro _
        omega
      · intro _
        trivial
  · intro max
    simp only [Coord.right_n, uaddPanic]
    by_cases h : c.x + nOpt.getD 1 < 2 ^ w
    · simp only [if_pos h]
      constructor
      · intro habs
        exfalso
        revert habs
        split <;> simp
      · intro hge
        omega
    · simp only [if_neg h]
      constructor
      · intro _
        omega
      · intro _
        trivial
  · simp only [HashGrid.up_n, usubPanic]
    by_cases h : step ≤ c.y
    · simp only [if_pos h]
      constructor
      · intro habs
        exact absurd habs (by simp)
      · intro hlt
        omega
    · simp only [if_neg h]
      constructor
      · intro _
        omega
      · intro _
        trivial

/-- Witness for C3's amended theorem at `w = 8`, `c = (3, 5)`, step 2,
limit 4, against an empty associative backend with checking active. -/
theorem directional_totality_amended_witness :
    (Coord.up_n ⟨3, 5⟩ (some 2) (some 4)).isSome = true ∧
    (Coord.left_n ⟨3, 5⟩ (some 2) (some 4)).isSome = true ∧
    (Coord.down_n 8 ⟨3, 5⟩ (some 2) none).isSome = true ∧
    (Coord.right_n 8 ⟨3, 5⟩ (some 2) none).isSome = true ∧
    (∀ max, (Coord.down_n 8 ⟨3, 5⟩ (some 2) (some max) = none ↔ 2 ^ 8 ≤ 5 + 2)) ∧
    (∀ max, (Coord.right_n 8 ⟨3, 5⟩ (some 2) (some max) = none ↔ 2 ^ 8 ≤ 3 + 2)) ∧
    ((HashGrid.new Int).up_n true ⟨3, 5⟩ 2 = none ↔ 5 < 2) :=
  directional_totality_amended 8 ⟨3, 5⟩ (some 2) (some 4) (HashGrid.new Int) true 2

/-- C8: `points_are_linear` is true for every slice of fewer than 3 points,
and for 3 or more points it is true if and only if every point after the
first two satisfies the exact cross-product test
`ref_dx * (y - y1) = ref_dy * (x - x1)` against the first two points. -/
theorem points_are_linear_spec (coords : List CoordZ) (c1 c2 c3 : CoordZ)
    (rest : List CoordZ) :
    (coords.length < 3 → CoordZ.points_are_linear coords = true) ∧
    (CoordZ.points_are_linear (c1 :: c2 :: c3 :: rest) = true ↔
      ∀ c ∈ c3 :: rest,
        (c2.x - c1.x) * (c.y - c1.y) = (c2.y - c1.y) * (c.x - c1.x)) := by
  constructor
  · intro h
    rcases coords with _ | ⟨a, _ | ⟨b, _ | ⟨d, t⟩⟩⟩
    · rfl
    · rfl
    · rfl
    · exfalso
      simp only [List.length_cons] at h
      omega
  · simp only [CoordZ.points_are_linear, List.all_eq_true, beq_iff_eq]

/-- Witness for C8: two points are vacuously collinear, and
`(0,0), (1,1), (2,2)` passes the cross-product test. -/
theorem points_are_linear_spec_witness :
    CoordZ.points_are_linear [⟨0, 0⟩, ⟨1, 1⟩] = true ∧
    CoordZ.points_are_linear [⟨0, 0⟩, ⟨1, 1⟩, ⟨2, 2⟩] = true :=
  ⟨(points_are_linear_spec [⟨0, 0⟩, ⟨1, 1⟩] ⟨0, 0⟩ ⟨1, 1⟩ ⟨2, 2⟩ []).1 (by decide),
   (points_are_linear_spec [] ⟨0, 0⟩ ⟨1, 1⟩ ⟨2, 2⟩ []).2.mpr (by decide)⟩

/-- C6: on the associative backend with an in-bounds key, `insert` followed
by `get` returns the inserted value, and on an unoccupied key two
`insert_or_ignore` calls both succeed with the first write winning —
`get` afterward returns the first value. -/
theorem hash_insert_get_roundtrip {V : Type} (g : HashGrid V) (dbg : Bool)
    (k : Coord) (v v1 v2 : V) (hb : g.inBounds k = true) :
    (∃ g1, g.insert dbg k v = .ok g1 ∧ g1.get dbg k = some v) ∧
    (g.data k = none →
      ∃ g1 g2, g.insert_or_ignore dbg k v1 = .ok g1 ∧
        g1.insert_or_ignore dbg k v2 = .ok g2 ∧ g2.get dbg k = some v1) := by
  constructor
  · refine ⟨{ g with data := fun c => if c = k then some v else g.data c }, ?_, ?_⟩
    · simp only [HashGrid.insert, check_bounds_of_inBounds hb dbg]
    · have hb1 : HashGrid.inBounds
          { g with data := fun c => if c = k then some v else g.data c } k = true := hb
      simp only [HashGrid.get, check_bounds_of_inBounds hb1 dbg]
      simp
  · intro hnone
    have hb1 : HashGrid.inBounds
        { g with data := fun c => if c = k then some v1 else g.data c } k = true := hb
    refine ⟨{ g with data := fun c => if c = k then some v1 else g.data c },
            { g with data := fun c => if c = k then some v1 else g.data c }, ?_, ?_, ?_⟩
    · simp only [HashGrid.insert_or_ignore, check_bounds_of_inBounds hb dbg, Except.ok.injEq]
      congr 1
      funext c
      by_cases hc : c = k <;> simp [hc, hnone]
    · simp only [HashGrid.insert_or_ignore, check_bounds_of_inBounds hb1 dbg, Except.ok.injEq]
      congr 1
      funext c
      by_cases hc : c = k <;> simp [hc]
    · simp only [HashGrid.get, check_bounds_of_inBounds hb1 dbg]
      simp

/-- Witness for C6: fresh unbounded grid, key `(1, 2)`, values 42, 10, 99,
with checking active. -/
theorem hash_insert_get_roundtrip_witness :
    (∃ g1, (HashGrid.new Int).insert true ⟨1, 2⟩ 42 = .ok g1 ∧
      g1.get true ⟨1, 2⟩ = some 42) ∧
    ∃ g1 g2, (HashGrid.new Int).insert_or_ignore true ⟨1, 2⟩ 10 = .ok g1 ∧
      g1.insert_or_ignore true ⟨1, 2⟩ 99 = .ok g2 ∧ g2.get true ⟨1, 2⟩ = some 10 :=
  ⟨(hash_insert_get_roundtrip (HashGrid.new Int) true ⟨1, 2⟩ 42 10 99 rfl).1,
   (hash_insert_get_roundtrip (HashGrid.new Int) true ⟨1, 2⟩ 42 10 99 rfl).2 rfl⟩

/-- C7: with checking active, `matches` fails with a bounds error exactly
when the key violates the configured bounds; otherwise it returns
`Ok(false)` on an absent key and `Ok(true)` iff the stored value equals the
probe (`decide (g.data k = some v)` is `true` iff a value is stored and
equals the probe). -/
theorem hash_matches_spec {V : Type} [DecidableEq V] (g : HashGrid V) (k : Coord) (v : V) :
    (g.inBounds k = false → ∃ e, g.matches true k v = .error e) ∧
    (g.inBounds k = true → g.matches true k v = .ok (decide (g.data k = some v))) := by
  constructor
  · intro hb
    obtain ⟨e, he⟩ := check_bounds_error_of_not_inBounds hb
    exact ⟨e, by simp only [HashGrid.matches, he]⟩
  · intro hb
    simp only [HashGrid.matches, check_bounds_of_inBounds hb true]
    cases hd : g.data k with
    | none => simp
    | some grid_value => simp

/-- Witness for C7: grid bounded to `[0,2] × [0,2]`, empty store; key
`(3, 1)` errors, key `(1, 1)` gives `Ok(false)`. -/
theorem hash_matches_spec_witness :
    (∃ e, HashGrid.matches
      { data := fun _ => none, min_x := some 0, max_x := some 2,
        min_y := some 0, max_y := some 2 } true ⟨3, 1⟩ (123 : Int) = .error e) ∧
    HashGrid.matches
      { data := fun _ => none, min_x := some 0, max_x := some 2,
        min_y := some 0, max_y := some 2 } true ⟨1, 1⟩ (123 : Int) = .ok false :=
  ⟨(hash_matches_spec
      { data := fun _ => none, min_x := some 0, max_x := some 2,
        min_y := some 0, max_y := some 2 } ⟨3, 1⟩ (123 : Int)).1 rfl,
   (hash_matches_spec
      { data := fun _ => none, min_x := some 0, max_x := some 2,
        min_y := some 0, max_y := some 2 } ⟨1, 1⟩ (123 : Int)).2 rfl⟩

/-- C9: with checking disabled (release configuration), `check_bounds`
succeeds for every key, and an insert of a key outside the declared bounds
succeeds and stores the value; the same insert with checking enabled
(debug configuration) fails. -/
theorem release_mode_bounds_skip {V : Type} (g : HashGrid V) (k : Coord) (v : V) :
    g.check_bounds false k = .ok () ∧
    (g.inBounds k = false →
      (∃ g1, g.insert false k v = .ok g1 ∧ g1.get false k = some v) ∧
      ∃ e, g.insert true k v = .error e) := by
  refine ⟨rfl, fun hb => ⟨?_, ?_⟩⟩
  · exact ⟨{ g with data := fun c => if c = k then some v else g.data c }, rfl,
      by simp only [HashGrid.get, if_pos rfl]; rfl⟩
  · obtain ⟨e, he⟩ := check_bounds_error_of_not_inBounds hb
    exact ⟨e, by simp only [HashGrid.insert, he]⟩

/-- Witness for C9: grid bounded to `[0,2] × [0,2]`, out-of-bounds key
`(3, 1)`. -/
theorem release_mode_bounds_skip_witness :
    (∃ g1, HashGrid.insert
      { data := fun _ => none, min_x := some 0, max_x := some 2,
        min_y := some 0, max_y := some 2 } false ⟨3, 1⟩ (2 : Int) = .ok g1 ∧
      g1.get false ⟨3, 1⟩ = some 2) ∧
    ∃ e, HashGrid.insert
      { data := fun _ => none, min_x := some 0, max_x := some 2,
        min_y := some 0, max_y := some 2 } true ⟨3, 1⟩ (2 : Int) = .error e :=
  (release_mode_bounds_skip
    { data := fun _ => none, min_x := some 0, max_x := some 2,
      min_y := some 0, max_y := some 2 } ⟨3, 1⟩ (2 : Int)).2 rfl

/-- C1 counterexample: on a 3×3 dense grid, inserting at `(3, 1)` — whose
x-coordinate is not in `[0, width)` — succeeds rather than failing, and
writes at linear index `1*3 + 3 = 6` (the repository's own
`test_bounds` asserts this insert `is_ok`). -/
theorem linear_insert_oob_counterexample :
    (LinearGrid.new 3 3 (0 : Int)).insert ⟨3, 1⟩ 2 =
      .ok ⟨[0, 0, 0, 0, 0, 0, 2, 0, 0], 3, 3⟩ := by
  rfl

/-- C1 amended: the dense backend's `insert` fails exactly when a
coordinate component cannot be converted to an index (is negative); any
insert with non-negative components succeeds, writing at linear index
`y*width + x` (a write past the backing sequence is silently dropped —
`List.set` is the identity out of range, as `data.get_mut` yields nothing
there — yet the call still succeeds). -/
theorem linear_insert_spec {V : Type} (g : LinearGrid V) (c : CoordZ) (v : V) :
    (c.x < 0 ∨ c.y < 0 → g.insert c v = .error "Coordinate out of bounds") ∧
    (0 ≤ c.x → 0 ≤ c.y →
      g.insert c v = .ok { g with data := g.data.set (c.y.toNat * g.width + c.x.toNat) v }) := by
  constructor
  · intro h
    rcases h with hx | hy
    · simp [LinearGrid.insert, LinearGrid.check_bounds, LinearGrid.get_index_from_coord,
        toIndex, hx]
    · by_cases hx : c.x < 0
      · simp [LinearGrid.insert, LinearGrid.check_bounds, LinearGrid.get_index_from_coord,
          toIndex, hx]
      · simp [LinearGrid.insert, LinearGrid.check_bounds, LinearGrid.get_index_from_coord,
          toIndex, hx, hy]
  · intro hx hy
    simp [LinearGrid.insert, LinearGrid.check_bounds, LinearGrid.get_index_from_coord,
      toIndex, Int.not_lt.mpr hx, Int.not_lt.mpr hy]

/-- Witness for C1's amended theorem: a negative component errors; an
in-range insert writes at index `1*3 + 1 = 4`. -/
theorem linear_insert_spec_witness :
    (LinearGrid.new 3 3 (0 : Int)).insert ⟨-1, 1⟩ 5 = .error "Coordinate out of bounds" ∧
    (LinearGrid.new 3 3 (0 : Int)).insert ⟨1, 1⟩ 5 =
      .ok { LinearGrid.new 3 3 (0 : Int) with
            data := (LinearGrid.new 3 3 (0 : Int)).data.set 4 5 } :=
  ⟨(linear_insert_spec (LinearGrid.new 3 3 (0 : Int)) ⟨-1, 1⟩ 5).1 (Or.inl (by decide)),
   (linear_insert_spec (LinearGrid.new 3 3 (0 : Int)) ⟨1, 1⟩ 5).2 (by decide) (by decide)⟩

/-- C2 counterexample: after `clear()` on a 2×2 dense grid, `get` at the
in-bounds coordinate `(0, 0)` yields no value, and the backing sequence
has length 0, not `width*height` (the repository's own `test_clear`
asserts `get == None` after `clear`). -/
theorem linear_clear_counterexample :
    ((LinearGrid.new 2 2 (0 : Int)).clear).get ⟨0, 0⟩ = none ∧
    ((LinearGrid.new 2 2 (0 : Int)).clear).data.length = 0 :=
  ⟨rfl, rfl⟩

/-- C2 amended: the constructor establishes the fully-populated invariant
(backing length `width*height`, every cell holding the initial value) and
`insert` preserves the backing length (the read-only operations do not
touch it), but `clear()` empties the backing sequence to length 0 rather
than resetting cells, after which `get` returns no value at every
coordinate. -/
theorem linear_invariant_amended {V : Type} (w h : Nat) (init v : V)
    (g g1 : LinearGrid V) (c : CoordZ) :
    (LinearGrid.new w h init).data.length = w * h ∧
    (∀ i, i < w * h → ((LinearGrid.new w h init).data)[i]? = some init) ∧
    (g.insert c v = .ok g1 →
      g1.data.length = g.data.length ∧ g1.width = g.width ∧ g1.height = g.height) ∧
    (g.clear).data = [] ∧
    (g.clear).get c = none := by
  refine ⟨?_, ?_, ?_, rfl, ?_⟩
  · simp [LinearGrid.new]
  · intro i hi
    simp [LinearGrid.new, List.getElem?_replicate, hi]
  · intro hins
    simp only [LinearGrid.insert, LinearGrid.check_bounds] at hins
    rcases hidx : g.get_index_from_coord c with _ | index
    · rw [hidx] at hins
      exact absurd hins (by simp)
    · rw [hidx] at hins
      simp only [Except.ok.injEq] at hins
      subst hins
      simp
  · simp only [LinearGrid.get, LinearGrid.check_bounds, LinearGrid.clear]
    rcases hidx : LinearGrid.get_index_from_coord { g with data := ([] : List V) } c
      with _ | index
    · simp
    · simp

/-- Witness for C2's amended theorem: 2×3 grid of 7s; insert at `(0, 1)`
preserves the backing length; clear empties it and get finds nothing. -/
theorem linear_invariant_amended_witness :
    ((LinearGrid.new 2 3 (7 : Int)).data)[5]? = some 7 ∧
    (((LinearGrid.new 2 3 (7 : Int)).data.set 2 9).length =
        (LinearGrid.new 2 3 (7 : Int)).data.length ∧ (2 : Nat) = 2 ∧ (3 : Nat) = 3) ∧
    ((LinearGrid.new 2 3 (7 : Int)).clear).get ⟨0, 1⟩ = none :=
  ⟨(linear_invariant_amended 2 3 (7 : Int) 9 (LinearGrid.new 2 3 (7 : Int))
      ⟨(LinearGrid.new 2 3 (7 : Int)).data.set 2 9, 2, 3⟩ ⟨0, 1⟩).2.1 5 (by decide),
   (linear_invariant_amended 2 3 (7 : Int) 9 (LinearGrid.new 2 3 (7 : Int))
      ⟨(LinearGrid.new 2 3 (7 : Int)).data.set 2 9, 2, 3⟩ ⟨0, 1⟩).2.2.1 rfl,
   (linear_invariant_amended 2 3 (7 : Int) 9 (LinearGrid.new 2 3 (7 : Int))
      ⟨(LinearGrid.new 2 3 (7 : Int)).data.set 2 9, 2, 3⟩ ⟨0, 1⟩).2.2.2.2⟩

/-- C10: in the dense backend, a coordinate `(x, y)` with non-negative
components, `y*width + x < width*height` but `x ≥ width`, aliases the cell
at linear index `y*width + x`: `get` returns the value stored there (not
"no value"), that is the same cell `get` finds at the coordinate
`((y*width+x) mod width, (y*width+x) div width)` which row-major iteration
assigns to that index, and `insert` overwrites that aliased cell. -/
theorem linear_alias_spec {V : Type} (g : LinearGrid V) (x y : Nat) (v : V)
    (hlen : g.data.length = g.width * g.height)
    (hx : g.width ≤ x)
    (hidx : y * g.width + x < g.width * g.height) :
    (∃ val, g.data[y * g.width + x]? = some val ∧
      g.get ⟨(x : Int), (y : Int)⟩ = some val ∧
      g.get ⟨(((y * g.width + x) % g.width : Nat) : Int),
             (((y * g.width + x) / g.width : Nat) : Int)⟩ = some val ∧
      g.iterList[y * g.width + x]? =
        some (⟨(((y * g.width + x) % g.width : Nat) : Int),
               (((y * g.width + x) / g.width : Nat) : Int)⟩, val)) ∧
    g.insert ⟨(x : Int), (y : Int)⟩ v =
      .ok { g with data := g.data.set (y * g.width + x) v } := by
  have hi : y * g.width + x < g.data.length := by rw [hlen]; exact hidx
  have hnn : ∀ n : Nat, ¬((n : Int) < 0) := fun n => by omega
  have halias : (y * g.width + x) / g.width * g.width + (y * g.width + x) % g.width =
      y * g.width + x := by
    rw [Nat.mul_comm]
    exact Nat.div_add_mod (y * g.width + x) g.width
  refine ⟨⟨g.data.get ⟨y * g.width + x, hi⟩, ?_, ?_, ?_, ?_⟩, ?_⟩
  · simp [List.getElem?_eq_getElem hi]
  · simp only [LinearGrid.get, LinearGrid.check_bounds, LinearGrid.get_index_from_coord,
      toIndex, hnn, if_false, Int.toNat_natCast, Option.bind_eq_bind, Option.some_bind]
    simp [List.getElem?_eq_getElem hi]
  · simp only [LinearGrid.get, LinearGrid.check_bounds, LinearGrid.get_index_from_coord,
      toIndex, hnn, if_false, Int.toNat_natCast, Option.bind_eq_bind, Option.some_bind,
      halias]
    simp [List.getElem?_eq_getElem hi]
  · have hmap := List.get_mapIdx g.data
      (fun idx v =>
        ((⟨((idx % g.width : Nat) : Int), ((idx / g.width : Nat) : Int)⟩ : CoordZ), v))
      (y * g.width + x) hi
    have hi' : y * g.width + x < (g.iterList).length := by
      simp only [LinearGrid.iterList, List.length_mapIdx]
      exact hi
    rw [List.getElem?_eq_getElem hi']
    simp only [LinearGrid.iterList]
    rw [List.get_eq_getElem] at hmap
    rw [hmap]
  · simp only [LinearGrid.insert, LinearGrid.check_bounds, LinearGrid.get_index_from_coord,
      toIndex, hnn, if_false, Int.toNat_natCast, Option.bind_eq_bind, Option.some_bind]

/-- Witness for C10: the 3×3 grid storing `0..8` in row-major order, at
`(x, y) = (4, 1)`: linear index 7, aliasing iteration coordinate
`(1, 2)`, both reading 7; insert overwrites index 7. -/
theorem linear_alias_spec_witness :
    (∃ val, (⟨[0, 1, 2, 3, 4, 5, 6, 7, 8], 3, 3⟩ : LinearGrid Int).data[7]? = some val ∧
      (⟨[0, 1, 2, 3, 4, 5, 6, 7, 8], 3, 3⟩ : LinearGrid Int).get ⟨4, 1⟩ = some val ∧
      (⟨[0, 1, 2, 3, 4, 5, 6, 7, 8], 3, 3⟩ : LinearGrid Int).get ⟨1, 2⟩ = some val ∧
      (⟨[0, 1, 2, 3, 4, 5, 6, 7, 8], 3, 3⟩ : LinearGrid Int).iterList[7]? =
        some (⟨1, 2⟩, val)) ∧
    (⟨[0, 1, 2, 3, 4, 5, 6, 7, 8], 3, 3⟩ : LinearGrid Int).insert ⟨4, 1⟩ 99 =
      .ok ⟨[0, 1, 2, 3, 4, 5, 6, 99, 8], 3, 3⟩ :=
  linear_alias_spec (⟨[0, 1, 2, 3, 4, 5, 6, 7, 8], 3, 3⟩ : LinearGrid Int) 4 1 99
    rfl (by decide) (by decide)
